import Mathlib

/-!
Shallow embedding of `sass.py` from libsass-python 0.3.0 (Python 2).

The module defines `compile(**kwargs)` plus the helper `and_join(strings)`.
`compile` validates a bag of keyword options, normalizes them, dispatches
to one of three native entry points (`compile_string`, `compile_filename`,
`compile_dirname` from the `_sass` C extension), and translates the
resulting `(success_flag, payload)` pair into a value or a raised error.

Python values that can flow through the keyword arguments are embedded as
`Value`; raised exceptions as `PyError`; the native entry points are kept
abstract as a function `NativeCall → Bool × String` supplied by an `Env`.
Python 2 semantics is modelled faithfully; in particular `str` is
registered with `collections.Sequence`, so `isinstance(s, Sequence)` is
true for strings.
-/

namespace LibSass

/-- A Python value that can appear as a keyword-argument value in a call
to `compile`: a string (`str`/`unicode`, both `basestring`), a list,
a tuple, an integer, or `None`. -/
inductive Value where
  | str (s : String)
  | vlist (xs : List Value)
  | vtuple (xs : List Value)
  | vint (n : Int)
  | vnone

/-- A raised Python exception, by kind and message: `TypeError`,
`ValueError`, `sass.CompileError` (a `ValueError` subclass), `IOError`,
and `KeyError` (carrying the missing key). -/
inductive PyError where
  | typeError (msg : String)
  | valueError (msg : String)
  | compileError (msg : String)
  | ioError (msg : String)
  | keyError (key : String)
deriving Repr, DecidableEq

/-- A fully-applied invocation of one of the three native entry points
imported from `_sass`. -/
inductive NativeCall where
  | cstring (source : Value) (output_style : Int) (include_paths image_path : String)
  | cfilename (filename : Value) (output_style : Int) (include_paths image_path : String)
  | cdirname (search_path output_path : Value) (output_style : Int)
      (include_paths image_path : String)

mutual

/-- Approximation of Python 2 `repr`, used only inside error messages. -/
def pyRepr : Value → String
  | .str s => "«" ++ s ++ "»"
  | .vlist xs => "[" ++ String.intercalate ", " (pyReprList xs) ++ "]"
  | .vtuple xs => "(" ++ String.intercalate ", " (pyReprList xs) ++ ")"
  | .vint n => toString n
  | .vnone => "None"

/-- `pyRepr` mapped over a list of values. -/
def pyReprList : List Value → List String
  | [] => []
  | x :: xs => pyRepr x :: pyReprList xs

end

/-- `isinstance(v, basestring)` in Python 2. -/
def isBasestring : Value → Bool
  | .str _ => true
  | _ => false

/-- `isinstance(v, collections.Sequence)` in Python 2: `basestring`,
`tuple` and `list` are all registered with `collections.Sequence`. -/
def isSequence : Value → Bool
  | .str _ => true
  | .vlist _ => true
  | .vtuple _ => true
  | _ => false

/-- The string carried by a `basestring` value. -/
def asString : Value → String
  | .str s => s
  | _ => ""

/-- The elements obtained by iterating a sequence value: iterating a
string yields its characters as one-character strings. -/
def seqElems : Value → List Value
  | .str s => s.data.map fun c => .str (String.singleton c)
  | .vlist xs => xs
  | .vtuple xs => xs
  | _ => []

/-- Checks that every element is a string, returning the strings. -/
def allStrings : List Value → Option (List String)
  | [] => some []
  | .str s :: rest => (allStrings rest).map fun ss => s :: ss
  | _ => none

/-- Python `sep.join(xs)`: raises `TypeError` when an element is not a
string. -/
def joinStrs (sep : String) (xs : List Value) : Except PyError String :=
  match allStrings xs with
  | some ss => .ok (String.intercalate sep ss)
  | none => .error (.typeError "sequence item: expected string")

/-- The body of the generator expression in `and_join`: element `s` at
index `i` becomes `"and " ++ s` when `i == last` and stays `s` otherwise. -/
def and_join_items (last : Int) : Nat → List String → List String
  | _, [] => []
  | i, s :: rest => (if (i : Int) = last then "and " ++ s else s) :: and_join_items last (i + 1) rest

/-- `and_join(strings)` from `sass.py`: join the given strings by commas
with a final "and " conjunction. -/
def and_join (strings : List String) : String :=
  let last : Int := (strings.length : Int) - 1
  if last = 0 then strings.getD 0 ""
  else if last < 0 then ""
  else String.intercalate ", " (and_join_items last 0 strings)

/-- `MODES` from `sass.py`: the set of mode keywords `compile` accepts,
modelled as a list in the literal order of the source. -/
def MODES : List String := ["string", "filename", "dirname"]

/-- Modelled from the spec: the `OUTPUT_STYLES` name-to-code mapping is
supplied by the native `_sass` extension, which is not part of this
repository.  The spec fixes its keys as `nested`, `expanded`, `compact`
and `compressed` mapped to integer flag codes; the concrete codes are
opaque and chosen arbitrarily here. -/
def OUTPUT_STYLES : List (String × Int) :=
  [("nested", 0), ("expanded", 1), ("compact", 2), ("compressed", 3)]

/-- Popping and validating `output_style`: default `"nested"` when
absent, `TypeError` when not a `basestring`, then a lookup in the
`OUTPUT_STYLES` mapping whose `KeyError` is turned into a
`CompileError` listing the valid names. -/
def styleCodeOf (outputStyles : List (String × Int)) (kwargs : List (String × Value)) :
    Except PyError Int :=
  match (kwargs.lookup "output_style").getD (.str "nested") with
  | .str styleName =>
    match outputStyles.lookup styleName with
    | some code => .ok code
    | none => .error (.compileError (styleName ++ " is unsupported output_style; choose one of "
        ++ and_join (outputStyles.map Prod.fst)))
  | v => .error (.typeError ("output_style must be a string, not " ++ pyRepr v))

/-- Popping and validating `include_paths`: default `""` when absent; a
`collections.Sequence` is joined with `":"` (in Python 2 a string is a
`Sequence`, so a string is joined character-wise); a `basestring` that is
not a `Sequence` would pass through (dead in Python 2); anything else is
a `TypeError`. -/
def normalizeIncludePaths (kwargs : List (String × Value)) : Except PyError String :=
  match kwargs.lookup "include_paths" with
  | none => .ok ""
  | some include_paths =>
    if isSequence include_paths then
      joinStrs ":" (seqElems include_paths)
    else if isBasestring include_paths then
      .ok (asString include_paths)
    else
      .error (.typeError ("include_paths must be a sequence of strings, or a colon-separated string, not "
        ++ pyRepr include_paths))

/-- Popping and validating `image_path`: default `"."` when absent,
`TypeError` when not a `basestring`. -/
def normalizeImagePath (kwargs : List (String × Value)) : Except PyError String :=
  match kwargs.lookup "image_path" with
  | none => .ok "."
  | some (.str s) => .ok s
  | some v => .error (.typeError ("image_path must be a string, not " ++ pyRepr v))

/-- Iterable unpacking `a, b = chars` on the character list of a string:
`ValueError` unless there are exactly two characters. -/
def unpackChars : List Char → Except PyError (Value × Value)
  | [a, b] => .ok (.str (String.singleton a), .str (String.singleton b))
  | _ => .error (.valueError "unpack mismatch")

/-- Iterable unpacking `search_path, output_path = dirname`: a sequence
of exactly two elements unpacks (a two-character string unpacks into its
two characters); a sequence of any other length raises `ValueError`; a
non-iterable raises `TypeError`. -/
def unpack2 : Value → Except PyError (Value × Value)
  | .str s => unpackChars s.data
  | .vlist [a, b] => .ok (a, b)
  | .vlist _ => .error (.valueError "unpack mismatch")
  | .vtuple [a, b] => .ok (a, b)
  | .vtuple _ => .error (.valueError "unpack mismatch")
  | v => .error (.typeError (pyRepr v ++ " object is not iterable"))

/-- The `if/elif` dispatch at the end of `compile`, producing the native
call for the selected mode (or the error raised before reaching it). -/
def modeDispatch (isfile : Value → Bool) (kwargs : List (String × Value))
    (modes : List String) (output_style : Int) (include_paths image_path : String) :
    Except PyError NativeCall :=
  if modes.contains "string" then
    match kwargs.lookup "string" with
    | some string => .ok (.cstring string output_style include_paths image_path)
    | none => .error (.keyError "string")
  else if modes.contains "filename" then
    match kwargs.lookup "filename" with
    | some filename =>
      if isfile filename then
        .ok (.cfilename filename output_style include_paths image_path)
      else
        .error (.ioError (pyRepr filename ++ " seems not a file"))
    | none => .error (.keyError "filename")
  else if modes.contains "dirname" then
    match kwargs.lookup "dirname" with
    | some dv =>
      match unpack2 dv with
      | .ok (search_path, output_path) =>
        .ok (.cdirname search_path output_path output_style include_paths image_path)
      | .error (.valueError _) =>
        .error (.valueError "dirname must be a pair of (source_dir, output_dir)")
      | .error e => .error e
    | none => .error (.keyError "dirname")
  else
    .error (.typeError "something went wrong")

/-- The body of `compile` after the mode set `modes` has been computed:
mode-count validation, option normalization, then mode dispatch. -/
def dispatchModes (outputStyles : List (String × Int)) (isfile : Value → Bool)
    (kwargs : List (String × Value)) (modes : List String) : Except PyError NativeCall :=
  if modes.length = 0 then
    .error (.typeError ("choose one at least in " ++ and_join MODES))
  else if 1 < modes.length then
    .error (.typeError (and_join modes ++ " are exclusive each other; cannot be used at a time"))
  else
    match styleCodeOf outputStyles kwargs with
    | .error e => .error e
    | .ok output_style =>
      match normalizeIncludePaths kwargs with
      | .error e => .error e
      | .ok include_paths =>
        match normalizeImagePath kwargs with
        | .error e => .error e
        | .ok image_path =>
          modeDispatch isfile kwargs modes output_style include_paths image_path

/-- Everything `compile` does before invoking a native entry point: the
result is either the native call about to be made or the error raised
without any native entry point being invoked. -/
def dispatch (outputStyles : List (String × Int)) (isfile : Value → Bool)
    (kwargs : List (String × Value)) : Except PyError NativeCall :=
  dispatchModes outputStyles isfile kwargs
    (MODES.filter fun m => (kwargs.lookup m).isSome)

/-- The ambient process state `compile` runs in: the `OUTPUT_STYLES`
mapping loaded from `_sass`, the behaviour of `os.path.isfile`, and the
behaviour of the three native entry points (each returning a
`(success_flag, payload)` pair). -/
structure Env where
  outputStyles : List (String × Int)
  isfile : Value → Bool
  native : NativeCall → Bool × String

/-- `compile(**kwargs)` from `sass.py`: validate and normalize, invoke
the selected native entry point, then return the payload on success and
raise `CompileError(payload)` on failure. -/
def compile (env : Env) (kwargs : List (String × Value)) : Except PyError String :=
  match dispatch env.outputStyles env.isfile kwargs with
  | .error e => .error e
  | .ok call =>
    let sv := env.native call
    if sv.1 then .ok sv.2 else .error (.compileError sv.2)

/-- Usage errors in the sense of the spec: `TypeError` and plain
`ValueError` (request-construction failures), as opposed to
`CompileError` and `IOError`. -/
def isUsage : PyError → Bool
  | .typeError _ => true
  | .valueError _ => true
  | _ => false

/-- Looking a key up past an unequal head. -/
lemma lookup_cons_ne {β : Type} (key k : String) (v : β) (l : List (String × β)) (h : key ≠ k) :
    List.lookup key ((k, v) :: l) = List.lookup key l := by
  have hb : (key == k) = false := beq_eq_false_iff_ne.mpr h
  simp [List.lookup, hb]

/-- When only `string` is present among the mode keys, the mode set is
the singleton `["string"]`. -/
lemma modes_eq_string (kwargs : List (String × Value)) (sv : Value)
    (h1 : kwargs.lookup "string" = some sv) (h2 : kwargs.lookup "filename" = none)
    (h3 : kwargs.lookup "dirname" = none) :
    (MODES.filter fun m => (kwargs.lookup m).isSome) = ["string"] := by
  simp [ MODES, List.filter, h1, h2, h3]

/-- When only `filename` is present among the mode keys, the mode set is
the singleton `["filename"]`. -/
lemma modes_eq_filename (kwargs : List (String × Value)) (fv : Value)
    (h1 : kwargs.lookup "string" = none) (h2 : kwargs.lookup "filename" = some fv)
    (h3 : kwargs.lookup "dirname" = none) :
    (MODES.filter fun m => (kwargs.lookup m).isSome) = ["filename"] := by
  simp [ MODES, List.filter, h1, h2, h3]

/-- When only `dirname` is present among the mode keys, the mode set is
the singleton `["dirname"]`. -/
lemma modes_eq_dirname (kwargs : List (String × Value)) (dv : Value)
    (h1 : kwargs.lookup "string" = none) (h2 : kwargs.lookup "filename" = none)
    (h3 : kwargs.lookup "dirname" = some dv) :
    (MODES.filter fun m => (kwargs.lookup m).isSome) = ["dirname"] := by
  simp [ MODES, List.filter, h1, h2, h3]

/-- With a single mode selected and all three option normalizations
successful, `dispatchModes` reduces to the mode dispatch. -/
lemma dispatchModes_one (styles : List (String × Int)) (isfile : Value → Bool)
    (kwargs : List (String × Value)) (m : String) (code : Int) (incl img : String)
    (hst : styleCodeOf styles kwargs = .ok code)
    (hinc : normalizeIncludePaths kwargs = .ok incl)
    (himg : normalizeImagePath kwargs = .ok img) :
    dispatchModes styles isfile kwargs [m] = modeDispatch isfile kwargs [m] code incl img := by
  simp [dispatchModes, hst, hinc, himg]

/-- Mode dispatch in string mode. -/
lemma modeDispatch_string (isfile : Value → Bool) (kwargs : List (String × Value))
    (code : Int) (incl img : String) (sv : Value) (h : kwargs.lookup "string" = some sv) :
    modeDispatch isfile kwargs ["string"] code incl img = .ok (.cstring sv code incl img) := by
  simp [modeDispatch, h]

/-- Mode dispatch in filename mode: the `os.path.isfile` guard decides
between the native call and the `IOError`. -/
lemma modeDispatch_filename (isfile : Value → Bool) (kwargs : List (String × Value))
    (code : Int) (incl img : String) (fv : Value) (h : kwargs.lookup "filename" = some fv) :
    modeDispatch isfile kwargs ["filename"] code incl img =
      if isfile fv then .ok (.cfilename fv code incl img)
      else .error (.ioError (pyRepr fv ++ " seems not a file")) := by
  have c1 : (["filename"] : List String).contains "string" = false := by decide
  simp [modeDispatch, c1, h]

/-- Mode dispatch in dirname mode reduces to the unpacking of the
`dirname` value. -/
lemma modeDispatch_dirname (isfile : Value → Bool) (kwargs : List (String × Value))
    (code : Int) (incl img : String) (dv : Value) (h : kwargs.lookup "dirname" = some dv) :
    modeDispatch isfile kwargs ["dirname"] code incl img =
      match unpack2 dv with
      | .ok (a, b) => .ok (.cdirname a b code incl img)
      | .error (.valueError _) =>
        .error (.valueError "dirname must be a pair of (source_dir, output_dir)")
      | .error e => .error e := by
  have c1 : (["dirname"] : List String).contains "string" = false := by decide
  have c2 : (["dirname"] : List String).contains "filename" = false := by decide
  simp [modeDispatch, c1, c2, h]

/-- `compile` propagates an error produced by the pre-native phase. -/
lemma compile_of_dispatch_error (env : Env) (kwargs : List (String × Value)) (e : PyError)
    (h : dispatch env.outputStyles env.isfile kwargs = .error e) :
    compile env kwargs = .error e := by
  simp [compile, h]

/-- Any error of `unpackChars` is a `ValueError`. -/
lemma unpackChars_error (cs : List Char) (e : PyError) (h : unpackChars cs = .error e) :
    ∃ m, e = .valueError m := by
  unfold unpackChars at h
  split at h
  · exact absurd h (by simp)
  · exact ⟨_, (Except.error.inj h).symm⟩

/-- Any error of `unpack2` is a usage error (a `ValueError` for a wrong
element count, a `TypeError` for a non-iterable). -/
lemma unpack2_error (dv : Value) (e : PyError) (h : unpack2 dv = .error e) :
    isUsage e = true := by
  cases dv with
  | str s =>
    unfold unpack2 at h
    obtain ⟨m, rfl⟩ := unpackChars_error _ _ h
    rfl
  | vlist xs =>
    rcases xs with _ | ⟨a, _ | ⟨b, _ | ⟨c, rest⟩⟩⟩ <;> simp [unpack2] at h <;>
      (subst h; rfl)
  | vtuple xs =>
    rcases xs with _ | ⟨a, _ | ⟨b, _ | ⟨c, rest⟩⟩⟩ <;> simp [unpack2] at h <;>
      (subst h; rfl)
  | vint n =>
    simp [unpack2] at h
    subst h; rfl
  | vnone =>
    simp [unpack2] at h
    subst h; rfl

/-- With a textual `output_style` present, `styleCodeOf` is exactly the
table lookup. -/
lemma styleCodeOf_some (styles : List (String × Int)) (kwargs : List (String × Value))
    (name : String) (h : kwargs.lookup "output_style" = some (.str name)) :
    styleCodeOf styles kwargs =
      match styles.lookup name with
      | some code => .ok code
      | none => .error (.compileError (name ++ " is unsupported output_style; choose one of "
          ++ and_join (styles.map Prod.fst))) := by
  simp [styleCodeOf, h]

/-- Any error of Python string join is a `TypeError`. -/
lemma joinStrs_error (sep : String) (xs : List Value) (e : PyError)
    (h : joinStrs sep xs = .error e) : ∃ m, e = .typeError m := by
  unfold joinStrs at h
  split at h
  · exact absurd h (by simp)
  · exact ⟨_, (Except.error.inj h).symm⟩

/-- Any error of the `include_paths` normalization is a `TypeError`. -/
lemma normalizeIncludePaths_error (kwargs : List (String × Value)) (e : PyError)
    (h : normalizeIncludePaths kwargs = .error e) : ∃ m, e = .typeError m := by
  unfold normalizeIncludePaths at h
  split at h
  · exact absurd h (by simp)
  · split_ifs at h
    all_goals first
      | exact joinStrs_error _ _ _ h
      | exact ⟨_, (Except.error.inj h).symm⟩

/-- Any error of the `image_path` normalization is a `TypeError`. -/
lemma normalizeImagePath_error (kwargs : List (String × Value)) (e : PyError)
    (h : normalizeImagePath kwargs = .error e) : ∃ m, e = .typeError m := by
  unfold normalizeImagePath at h
  split at h
  · exact absurd h (by simp)
  · exact absurd h (by simp)
  · exact ⟨_, (Except.error.inj h).symm⟩

/-- The mode dispatch never raises a `CompileError`. -/
lemma modeDispatch_error (isfile : Value → Bool) (kwargs : List (String × Value))
    (modes : List String) (code : Int) (incl img : String) (e : PyError)
    (h : modeDispatch isfile kwargs modes code incl img = .error e) :
    ∀ m, e ≠ .compileError m := by
  intro m hm; subst hm
  unfold modeDispatch at h
  split_ifs at h
  · rcases hl : kwargs.lookup "string" with _ | sv <;> simp [hl] at h
  · rcases hl : kwargs.lookup "filename" with _ | fv <;> simp only [hl] at h
    · simp at h
    · split_ifs at h; simp at h
  · rcases hl : kwargs.lookup "dirname" with _ | dv <;> simp only [hl] at h
    · simp at h
    · rcases hu : unpack2 dv with e2 | ⟨a, b⟩ <;> simp only [hu] at h
      · have husage := unpack2_error dv e2 hu
        cases e2 <;> simp_all [isUsage]
      · simp at h
  · simp at h

/-- When the selected style name is valid, no phase of `dispatch` can
produce a `CompileError`: the pre-native `CompileError` arises only from
the `output_style` lookup. -/
lemma dispatch_no_compileError (styles : List (String × Int)) (isfile : Value → Bool)
    (kwargs : List (String × Value)) (code : Int)
    (hst : styleCodeOf styles kwargs = .ok code) :
    ∀ m, dispatch styles isfile kwargs ≠ .error (.compileError m) := by
  intro m h
  unfold dispatch dispatchModes at h
  split_ifs at h
  · simp at h
  · simp at h
  · rcases hi : normalizeIncludePaths kwargs with e2 | incl
    · obtain ⟨m2, hm2⟩ := normalizeIncludePaths_error _ _ hi
      subst hm2
      simp [hst, hi] at h
    · rcases hg : normalizeImagePath kwargs with e3 | img
      · obtain ⟨m3, hm3⟩ := normalizeImagePath_error _ _ hg
        subst hm3
        simp [hst, hi, hg] at h
      · simp only [hst, hi, hg] at h
        exact modeDispatch_error _ _ _ _ _ _ _ h m rfl

/-- With a single mode selected and successful option normalization,
`dispatch` is exactly the mode dispatch. -/
lemma dispatch_eq_modeDispatch (styles : List (String × Int)) (isfile : Value → Bool)
    (kwargs : List (String × Value)) (m : String) (code : Int) (incl img : String)
    (hm : (MODES.filter fun x => (kwargs.lookup x).isSome) = [m])
    (hst : styleCodeOf styles kwargs = .ok code)
    (hinc : normalizeIncludePaths kwargs = .ok incl)
    (himg : normalizeImagePath kwargs = .ok img) :
    dispatch styles isfile kwargs = modeDispatch isfile kwargs [m] code incl img := by
  unfold dispatch
  rw [hm]
  exact dispatchModes_one styles isfile kwargs m code incl img hst hinc himg

/-- The generator expression of `and_join` keeps every element before
the last unchanged and puts "and " in front of the last one. -/
lemma and_join_items_last (xs : List String) (y : String) (i : Nat) (last : Int)
    (h : (i : Int) + xs.length = last) :
    and_join_items last i (xs ++ [y]) = xs ++ ["and " ++ y] := by
  induction xs generalizing i with
  | nil =>
    simp only [List.length_nil, Nat.cast_zero, add_zero] at h
    simp [and_join_items, h]
  | cons x rest ih =>
    have hlen : (((x :: rest).length : Int)) = (rest.length : Int) + 1 := by
      push_cast [List.length_cons]
      ring
    have hlt : (i : Int) < last := by omega
    rw [List.cons_append]
    show (if (i : Int) = last then "and " ++ x else x) ::
        and_join_items last (i + 1) (rest ++ [y]) = x :: (rest ++ ["and " ++ y])
    rw [if_neg (by omega), ih (i + 1) (by push_cast; omega)]

/-- C6: `and_join` of the empty sequence is the empty string, of a
one-element sequence is that element unchanged, and of a longer sequence
joins all items with ", " while the final item gets an "and " in front,
as on the four-country example from the source docstring. -/
theorem and_join_spec :
    and_join [] = "" ∧
    (∀ x, and_join [x] = x) ∧
    and_join ["Korea", "Japan", "China", "Taiwan"] = "Korea, Japan, China, and Taiwan" ∧
    (∀ xs y, 2 ≤ xs.length →
      and_join (xs ++ [y]) = String.intercalate ", " (xs ++ ["and " ++ y])) := by
  refine ⟨rfl, ?_, rfl, ?_⟩
  · intro x
    simp [and_join]
  · intro xs y h
    have hlast : (((xs ++ [y]).length : Int) - 1) = (xs.length : Int) := by
      push_cast [List.length_append, List.length_singleton]
      ring
    have hne0 : ¬ ((xs.length : Int) = 0) := by omega
    have hneg : ¬ ((xs.length : Int) < 0) := by omega
    simp only [and_join]
    rw [hlast, if_neg hne0, if_neg hneg]
    congr 1
    exact and_join_items_last xs y 0 _ (by simp)

/-- C6 witness: the general clause of `and_join_spec` applied to the
four-country example. -/
theorem and_join_spec_witness :
    2 ≤ (["Korea", "Japan", "China"] : List String).length ∧
    and_join (["Korea", "Japan", "China"] ++ ["Taiwan"]) =
      String.intercalate ", " (["Korea", "Japan", "China"] ++ ["and " ++ "Taiwan"]) :=
  ⟨by decide, and_join_spec.2.2.2 ["Korea", "Japan", "China"] "Taiwan" (by decide)⟩

/-- C5 counterexample: on exactly two strings `and_join` still puts a
comma before the final "and", so the result is not "a and b". -/
theorem and_join_two_no_comma_refuted : and_join ["a", "b"] ≠ "a and b" := by decide

/-- C5 amended: on exactly two strings `and_join` joins them with
", and " in between; in particular it maps ["a", "b"] to "a, and b". -/
theorem and_join_two_comma_and (a b : String) : and_join [a, b] = a ++ ", and " ++ b := by
  have h2 : ((([a, b] : List String).length : Int) - 1) = 1 := by simp
  simp only [and_join]
  rw [h2, if_neg (by omega), if_neg (by omega)]
  have hitems : and_join_items 1 0 [a, b] = [a, "and " ++ b] := by
    norm_num [and_join_items]
  rw [hitems]
  show String.intercalate ", " [a, "and " ++ b] = a ++ ", and " ++ b
  simp only [String.intercalate, String.intercalate.go]
  rw [← String.append_assoc (a ++ ", ") "and " b, String.append_assoc a ", " "and "]
  have hca : ((", " ++ "and ") : String) = ", and " := rfl
  rw [hca]

/-- C1: forwarding of `include_paths`.  A sequence of strings is joined
with ":" as the claim states; a single string, however, is NOT forwarded
unchanged: being a `collections.Sequence` in Python 2 it is joined
character-wise, so "a:b:c" reaches the native entry point as
"a:::b:::c". -/
theorem include_paths_forwarding_bug :
    normalizeIncludePaths [("include_paths", Value.str "a:b:c")] = .ok "a:::b:::c" ∧
    dispatch [("nested", 0)] (fun _ => true)
      [("string", Value.str "x"), ("include_paths", Value.str "a:b:c")] =
      .ok (.cstring (Value.str "x") 0 "a:::b:::c" ".") ∧
    normalizeIncludePaths
      [("include_paths", Value.vlist [Value.str "a", Value.str "b", Value.str "c"])] =
      .ok "a:b:c" ∧
    dispatch [("nested", 0)] (fun _ => true)
      [("string", Value.str "x"),
       ("include_paths", Value.vlist [Value.str "a", Value.str "b", Value.str "c"])] =
      .ok (.cstring (Value.str "x") 0 "a:b:c" ".") :=
  ⟨rfl, rfl, rfl, rfl⟩

/-- C2: when `compile` reaches a native entry point, a `(true, payload)`
result makes it return the payload unchanged, and a `(false, payload)`
result makes it raise a `CompileError` whose message is exactly the
payload. -/
theorem compile_native_result_translation (env : Env) (kwargs : List (String × Value))
    (c : NativeCall) (p : String)
    (hd : dispatch env.outputStyles env.isfile kwargs = .ok c) :
    (env.native c = (true, p) → compile env kwargs = .ok p) ∧
    (env.native c = (false, p) → compile env kwargs = .error (.compileError p)) := by
  constructor <;> intro hn <;> simp [compile, hd, hn]

/-- C2 witness: a failing native result surfaces as a `CompileError`
with the same message, and a successful one is returned unchanged. -/
theorem compile_native_result_translation_witness :
    compile ⟨OUTPUT_STYLES, fun _ => true, fun _ => (false, "error: unexpected token")⟩
      [("string", Value.str "a color: blue")] =
      .error (.compileError "error: unexpected token") ∧
    compile ⟨OUTPUT_STYLES, fun _ => true, fun _ => (true, "a b color: blue;")⟩
      [("string", Value.str "a b color blue")] = .ok "a b color: blue;" := by
  constructor
  · exact (compile_native_result_translation
      ⟨OUTPUT_STYLES, fun _ => true, fun _ => (false, "error: unexpected token")⟩
      [("string", Value.str "a color: blue")]
      (.cstring (Value.str "a color: blue") 0 "" ".") "error: unexpected token" rfl).2 rfl
  · exact (compile_native_result_translation
      ⟨OUTPUT_STYLES, fun _ => true, fun _ => (true, "a b color: blue;")⟩
      [("string", Value.str "a b color blue")]
      (.cstring (Value.str "a b color blue") 0 "" ".") "a b color: blue;" rfl).1 rfl

/-- C3: with zero mode keywords present, or with two or more of them
present, `compile` raises a `TypeError` and no native entry point is
invoked: the pre-native phase itself produces the error, for every
possible behaviour of the native layer. -/
theorem compile_mode_exclusivity (styles : List (String × Int)) (isfile : Value → Bool)
    (native : NativeCall → Bool × String) (kwargs : List (String × Value)) :
    ((MODES.filter fun m => (kwargs.lookup m).isSome).length = 0 →
      dispatch styles isfile kwargs =
        .error (.typeError ("choose one at least in " ++ and_join MODES)) ∧
      compile ⟨styles, isfile, native⟩ kwargs =
        .error (.typeError ("choose one at least in " ++ and_join MODES))) ∧
    (1 < (MODES.filter fun m => (kwargs.lookup m).isSome).length →
      dispatch styles isfile kwargs =
        .error (.typeError (and_join (MODES.filter fun m => (kwargs.lookup m).isSome)
          ++ " are exclusive each other; cannot be used at a time")) ∧
      compile ⟨styles, isfile, native⟩ kwargs =
        .error (.typeError (and_join (MODES.filter fun m => (kwargs.lookup m).isSome)
          ++ " are exclusive each other; cannot be used at a time"))) := by
  constructor
  · intro h
    have hd : dispatch styles isfile kwargs =
        .error (.typeError ("choose one at least in " ++ and_join MODES)) := by
      unfold dispatch dispatchModes
      simp [h]
    exact ⟨hd, compile_of_dispatch_error _ _ _ hd⟩
  · intro h
    have h0 : ¬ (MODES.filter fun m => (kwargs.lookup m).isSome).length = 0 := by omega
    have hd : dispatch styles isfile kwargs =
        .error (.typeError (and_join (MODES.filter fun m => (kwargs.lookup m).isSome)
          ++ " are exclusive each other; cannot be used at a time")) := by
      unfold dispatch dispatchModes
      simp [h, h0]
    exact ⟨hd, compile_of_dispatch_error _ _ _ hd⟩

/-- C3 witness: the zero-mode call and a two-mode call, both rejected
before any native entry point. -/
theorem compile_mode_exclusivity_witness :
    dispatch OUTPUT_STYLES (fun _ => true) [] =
      .error (.typeError "choose one at least in string, filename, and dirname") ∧
    compile ⟨OUTPUT_STYLES, fun _ => true, fun _ => (true, "css")⟩
      [("string", Value.str "x"), ("dirname", Value.str "ab")] =
      .error (.typeError
        "string, and dirname are exclusive each other; cannot be used at a time") := by
  constructor
  · exact ((compile_mode_exclusivity OUTPUT_STYLES (fun _ => true) (fun _ => (true, "css"))
      []).1 (by decide)).1
  · exact ((compile_mode_exclusivity OUTPUT_STYLES (fun _ => true) (fun _ => (true, "css"))
      [("string", Value.str "x"), ("dirname", Value.str "ab")]).2 (by decide)).2

/-- C4: a textual `output_style` that is a key of the style mapping
passes style validation (and the whole pre-native phase can then never
raise a `CompileError`); a textual `output_style` that is not a key
makes `compile` raise a `CompileError` (not a usage error) listing the
valid names, before any native entry point is invoked. -/
theorem compile_output_style_validation (styles : List (String × Int)) (isfile : Value → Bool)
    (native : NativeCall → Bool × String) (kwargs : List (String × Value)) (name : String)
    (hos : kwargs.lookup "output_style" = some (.str name)) :
    (∀ code, styles.lookup name = some code →
      styleCodeOf styles kwargs = .ok code ∧
      ∀ m, dispatch styles isfile kwargs ≠ .error (.compileError m)) ∧
    (styles.lookup name = none →
      (MODES.filter fun m => (kwargs.lookup m).isSome).length = 1 →
      dispatch styles isfile kwargs = .error (.compileError (name
        ++ " is unsupported output_style; choose one of "
        ++ and_join (styles.map Prod.fst))) ∧
      compile ⟨styles, isfile, native⟩ kwargs = .error (.compileError (name
        ++ " is unsupported output_style; choose one of "
        ++ and_join (styles.map Prod.fst)))) := by
  constructor
  · intro code hcode
    have hst : styleCodeOf styles kwargs = .ok code := by
      rw [styleCodeOf_some styles kwargs name hos, hcode]
    exact ⟨hst, dispatch_no_compileError styles isfile kwargs code hst⟩
  · intro hnone hlen
    have hst : styleCodeOf styles kwargs = .error (.compileError (name
        ++ " is unsupported output_style; choose one of "
        ++ and_join (styles.map Prod.fst))) := by
      rw [styleCodeOf_some styles kwargs name hos, hnone]
    have h0 : ¬ (MODES.filter fun m => (kwargs.lookup m).isSome).length = 0 := by omega
    have h1 : ¬ 1 < (MODES.filter fun m => (kwargs.lookup m).isSome).length := by omega
    have hd : dispatch styles isfile kwargs = .error (.compileError (name
        ++ " is unsupported output_style; choose one of "
        ++ and_join (styles.map Prod.fst))) := by
      unfold dispatch dispatchModes
      simp [h0, h1, hst]
    exact ⟨hd, compile_of_dispatch_error _ _ _ hd⟩

/-- C4 witness: the valid name "compressed" passes style validation,
and the invalid name "bogus" is rejected with a `CompileError` listing
the valid names. -/
theorem compile_output_style_validation_witness :
    styleCodeOf OUTPUT_STYLES
      [("string", Value.str "x"), ("output_style", Value.str "compressed")] = .ok 3 ∧
    compile ⟨OUTPUT_STYLES, fun _ => true, fun _ => (true, "css")⟩
      [("string", Value.str "x"), ("output_style", Value.str "bogus")] =
      .error (.compileError
        "bogus is unsupported output_style; choose one of nested, expanded, compact, and compressed") := by
  constructor
  · exact ((compile_output_style_validation OUTPUT_STYLES (fun _ => true)
      (fun _ => (true, "css"))
      [("string", Value.str "x"), ("output_style", Value.str "compressed")]
      "compressed" rfl).1 3 rfl).1
  · exact ((compile_output_style_validation OUTPUT_STYLES (fun _ => true)
      (fun _ => (true, "css"))
      [("string", Value.str "x"), ("output_style", Value.str "bogus")]
      "bogus" rfl).2 rfl (by decide)).2

/-- C7: in filename mode, when `os.path.isfile` rejects the path (it
does not exist or is not a regular file), `compile` raises an `IOError`
naming the path, and no native entry point is invoked: the pre-native
phase itself produces the error, for every behaviour of the native
layer. -/
theorem compile_filename_missing_file (styles : List (String × Int)) (isfile : Value → Bool)
    (native : NativeCall → Bool × String) (kwargs : List (String × Value)) (fv : Value)
    (code : Int) (incl img : String)
    (h1 : kwargs.lookup "string" = none) (h2 : kwargs.lookup "filename" = some fv)
    (h3 : kwargs.lookup "dirname" = none)
    (hst : styleCodeOf styles kwargs = .ok code)
    (hinc : normalizeIncludePaths kwargs = .ok incl)
    (himg : normalizeImagePath kwargs = .ok img)
    (hfile : isfile fv = false) :
    dispatch styles isfile kwargs = .error (.ioError (pyRepr fv ++ " seems not a file")) ∧
    compile ⟨styles, isfile, native⟩ kwargs =
      .error (.ioError (pyRepr fv ++ " seems not a file")) := by
  have hm := modes_eq_filename kwargs fv h1 h2 h3
  have hd : dispatch styles isfile kwargs =
      .error (.ioError (pyRepr fv ++ " seems not a file")) := by
    rw [dispatch_eq_modeDispatch styles isfile kwargs "filename" code incl img hm hst hinc himg,
      modeDispatch_filename isfile kwargs code incl img fv h2, hfile]
    simp
  exact ⟨hd, compile_of_dispatch_error _ _ _ hd⟩

/-- C7 witness: a missing file is rejected with an `IOError` naming the
path. -/
theorem compile_filename_missing_file_witness :
    dispatch OUTPUT_STYLES (fun _ => false) [("filename", Value.str "style.scss")] =
      .error (.ioError (pyRepr (Value.str "style.scss") ++ " seems not a file")) ∧
    compile ⟨OUTPUT_STYLES, fun _ => false, fun _ => (true, "css")⟩
      [("filename", Value.str "style.scss")] =
      .error (.ioError (pyRepr (Value.str "style.scss") ++ " seems not a file")) :=
  compile_filename_missing_file OUTPUT_STYLES (fun _ => false) (fun _ => (true, "css"))
    [("filename", Value.str "style.scss")] (Value.str "style.scss") 0 "" "."
    rfl rfl rfl rfl rfl rfl rfl

/-- C8: in dirname mode, a value that unpacks into exactly two
components is forwarded with the style code, include paths and image
path to the native directory-compile entry point; a value whose
unpacking fails raises a usage error (the pair-shape `ValueError` for a
wrong element count, the propagated `TypeError` for a non-iterable) and
no native entry point is invoked. -/
theorem compile_dirname_pair_shape (styles : List (String × Int)) (isfile : Value → Bool)
    (native : NativeCall → Bool × String) (kwargs : List (String × Value)) (dv : Value)
    (code : Int) (incl img : String)
    (h1 : kwargs.lookup "string" = none) (h2 : kwargs.lookup "filename" = none)
    (h3 : kwargs.lookup "dirname" = some dv)
    (hst : styleCodeOf styles kwargs = .ok code)
    (hinc : normalizeIncludePaths kwargs = .ok incl)
    (himg : normalizeImagePath kwargs = .ok img) :
    (∀ a b, unpack2 dv = .ok (a, b) →
      dispatch styles isfile kwargs = .ok (.cdirname a b code incl img)) ∧
    (∀ m, unpack2 dv = .error (.valueError m) →
      dispatch styles isfile kwargs =
        .error (.valueError "dirname must be a pair of (source_dir, output_dir)") ∧
      compile ⟨styles, isfile, native⟩ kwargs =
        .error (.valueError "dirname must be a pair of (source_dir, output_dir)")) ∧
    (∀ m, unpack2 dv = .error (.typeError m) →
      dispatch styles isfile kwargs = .error (.typeError m) ∧
      compile ⟨styles, isfile, native⟩ kwargs = .error (.typeError m)) := by
  have hm := modes_eq_dirname kwargs dv h1 h2 h3
  have hd := dispatch_eq_modeDispatch styles isfile kwargs "dirname" code incl img hm hst hinc himg
  rw [modeDispatch_dirname isfile kwargs code incl img dv h3] at hd
  refine ⟨?_, ?_, ?_⟩
  · intro a b hu
    rw [hd, hu]
  · intro m hu
    rw [hu] at hd
    exact ⟨hd, compile_of_dispatch_error _ _ _ hd⟩
  · intro m hu
    rw [hu] at hd
    exact ⟨hd, compile_of_dispatch_error _ _ _ hd⟩

/-- C8 witness: a one-element list for `dirname` is rejected with the
pair-shape `ValueError`, and a two-element list is forwarded. -/
theorem compile_dirname_pair_shape_witness :
    dispatch OUTPUT_STYLES (fun _ => true) [("dirname", Value.vlist [Value.str "only"])] =
      .error (.valueError "dirname must be a pair of (source_dir, output_dir)") ∧
    dispatch OUTPUT_STYLES (fun _ => true)
      [("dirname", Value.vtuple [Value.str "in", Value.str "out"])] =
      .ok (.cdirname (Value.str "in") (Value.str "out") 0 "" ".") := by
  constructor
  · exact ((compile_dirname_pair_shape OUTPUT_STYLES (fun _ => true) (fun _ => (true, "css"))
      [("dirname", Value.vlist [Value.str "only"])] (Value.vlist [Value.str "only"])
      0 "" "." rfl rfl rfl rfl rfl rfl).2.1 "unpack mismatch" rfl).1
  · exact (compile_dirname_pair_shape OUTPUT_STYLES (fun _ => true) (fun _ => (true, "css"))
      [("dirname", Value.vtuple [Value.str "in", Value.str "out"])]
      (Value.vtuple [Value.str "in", Value.str "out"])
      0 "" "." rfl rfl rfl rfl rfl rfl).1 (Value.str "in") (Value.str "out") rfl

/-- Adding a keyword the dispatcher never reads leaves the pre-native
phase unchanged. -/
lemma dispatch_cons_unknown (styles : List (String × Int)) (isfile : Value → Bool)
    (k : String) (v : Value) (kwargs : List (String × Value))
    (h1 : ("string" : String) ≠ k) (h2 : ("filename" : String) ≠ k)
    (h3 : ("dirname" : String) ≠ k) (h4 : ("output_style" : String) ≠ k)
    (h5 : ("include_paths" : String) ≠ k) (h6 : ("image_path" : String) ≠ k) :
    dispatch styles isfile ((k, v) :: kwargs) = dispatch styles isfile kwargs := by
  have l1 := lookup_cons_ne "string" k v kwargs h1
  have l2 := lookup_cons_ne "filename" k v kwargs h2
  have l3 := lookup_cons_ne "dirname" k v kwargs h3
  have l4 := lookup_cons_ne "output_style" k v kwargs h4
  have l5 := lookup_cons_ne "include_paths" k v kwargs h5
  have l6 := lookup_cons_ne "image_path" k v kwargs h6
  have hfil : (MODES.filter fun m => (List.lookup m ((k, v) :: kwargs)).isSome)
      = (MODES.filter fun m => (List.lookup m kwargs).isSome) := by
    simp [ MODES, List.filter, l1, l2, l3]
  have hstyle : styleCodeOf styles ((k, v) :: kwargs) = styleCodeOf styles kwargs := by
    unfold styleCodeOf
    rw [l4]
  have hinc : normalizeIncludePaths ((k, v) :: kwargs) = normalizeIncludePaths kwargs := by
    unfold normalizeIncludePaths
    rw [l5]
  have himg : normalizeImagePath ((k, v) :: kwargs) = normalizeImagePath kwargs := by
    unfold normalizeImagePath
    rw [l6]
  have hmode : ∀ modes code incl img, modeDispatch isfile ((k, v) :: kwargs) modes code incl img
      = modeDispatch isfile kwargs modes code incl img := by
    intro modes code incl img
    unfold modeDispatch
    rw [l1, l2, l3]
  unfold dispatch dispatchModes
  rw [hfil, hstyle, hinc, himg]
  simp only [hmode]

/-- C9: keyword options other than the six the dispatcher reads are
silently ignored: adding any unrecognized keyword to a call leaves the
result of `compile` (returned value or raised error) identical. -/
theorem compile_ignores_unknown_keywords (env : Env) (kwargs : List (String × Value))
    (k : String) (v : Value)
    (hk : k ∉ (["string", "filename", "dirname", "output_style",
      "include_paths", "image_path"] : List String)) :
    compile env ((k, v) :: kwargs) = compile env kwargs := by
  simp only [List.mem_cons, List.not_mem_nil, or_false, not_or] at hk
  obtain ⟨n1, n2, n3, n4, n5, n6⟩ := hk
  have hd := dispatch_cons_unknown env.outputStyles env.isfile k v kwargs
    (Ne.symm n1) (Ne.symm n2) (Ne.symm n3) (Ne.symm n4) (Ne.symm n5) (Ne.symm n6)
  unfold compile
  rw [hd]

/-- C9 witness: adding the unrecognized keyword "precision" changes
nothing. -/
theorem compile_ignores_unknown_keywords_witness :
    compile ⟨OUTPUT_STYLES, fun _ => true, fun _ => (true, "css")⟩
      (("precision", Value.vint 5) :: [("string", Value.str "x")]) =
    compile ⟨OUTPUT_STYLES, fun _ => true, fun _ => (true, "css")⟩
      [("string", Value.str "x")] :=
  compile_ignores_unknown_keywords ⟨OUTPUT_STYLES, fun _ => true, fun _ => (true, "css")⟩
    [("string", Value.str "x")] "precision" (Value.vint 5) (by decide)

/-- C10: in dirname mode any value unpacking into exactly two elements
is accepted, including a two-character string whose two characters are
forwarded as the two directories; the pair-shape `ValueError` arises
only when unpacking fails with a wrong element count. -/
theorem dirname_two_element_unpack (styles : List (String × Int)) (isfile : Value → Bool)
    (kwargs : List (String × Value)) (dv : Value)
    (code : Int) (incl img : String)
    (h1 : kwargs.lookup "string" = none) (h2 : kwargs.lookup "filename" = none)
    (h3 : kwargs.lookup "dirname" = some dv)
    (hst : styleCodeOf styles kwargs = .ok code)
    (hinc : normalizeIncludePaths kwargs = .ok incl)
    (himg : normalizeImagePath kwargs = .ok img) :
    (∀ a b, unpack2 dv = .ok (a, b) →
      dispatch styles isfile kwargs = .ok (.cdirname a b code incl img)) ∧
    (∀ s a b, dv = .str s → s.data = [a, b] →
      dispatch styles isfile kwargs = .ok (.cdirname (.str (String.singleton a))
        (.str (String.singleton b)) code incl img)) ∧
    (dispatch styles isfile kwargs =
        .error (.valueError "dirname must be a pair of (source_dir, output_dir)") →
      ∃ m, unpack2 dv = .error (.valueError m)) := by
  have hm := modes_eq_dirname kwargs dv h1 h2 h3
  have hd := dispatch_eq_modeDispatch styles isfile kwargs "dirname" code incl img hm hst hinc himg
  rw [modeDispatch_dirname isfile kwargs code incl img dv h3] at hd
  refine ⟨?_, ?_, ?_⟩
  · intro a b hu
    rw [hd, hu]
  · intro s a b hdv hs
    subst hdv
    have hu : unpack2 (.str s) =
        .ok (.str (String.singleton a), .str (String.singleton b)) := by
      show unpackChars s.data = .ok (.str (String.singleton a), .str (String.singleton b))
      rw [hs]
      rfl
    rw [hd, hu]
  · intro hval
    rcases hu : unpack2 dv with e | ⟨a, b⟩
    · cases e with
      | valueError m => exact ⟨m, rfl⟩
      | typeError m =>
        rw [hu] at hd
        rw [hd] at hval
        simp at hval
      | compileError m =>
        have := unpack2_error dv _ hu
        simp [isUsage] at this
      | ioError m =>
        have := unpack2_error dv _ hu
        simp [isUsage] at this
      | keyError kk =>
        have := unpack2_error dv _ hu
        simp [isUsage] at this
    · rw [hu] at hd
      rw [hd] at hval
      simp at hval

/-- C10 witness: the two-character string "ab" for `dirname` is
accepted and its characters are forwarded as the two directories. -/
theorem dirname_two_element_unpack_witness :
    dispatch OUTPUT_STYLES (fun _ => true) [("dirname", Value.str "ab")] =
      .ok (.cdirname (Value.str "a") (Value.str "b") 0 "" ".") :=
  (dirname_two_element_unpack OUTPUT_STYLES (fun _ => true)
    [("dirname", Value.str "ab")] (Value.str "ab") 0 "" "."
    rfl rfl rfl rfl rfl rfl).2.1 "ab" (Char.ofNat 97) (Char.ofNat 98) rfl rfl

end LibSass
